import Mathlib

/-!
Shallow embedding of `wandbmon` (src/wandbmon/sdk/monitor.py): the
`PredictionRecord` data model, the Python-dict semantics its `as_dict` relies
on, and the `Monitor` session state machine (queueing, the commit/flush guard,
run rotation, the worker thread body).  Timestamps are integers (seconds),
payload values are an abstract type `V`, fallible Python code is modelled with
`Except`.
-/

namespace Wandbmon

/-- A Python dict, modelled as an insertion-ordered association list.
Insertion (`d[k] = v`) keeps the position of an existing key and otherwise
appends; the dict-literal / `**`-merge semantics is repeated insertion. -/
abbrev PyDict (K V : Type) := List (K × V)

variable {K V : Type} [DecidableEq K]

/-- The keys of a dict, in order. -/
def keys (d : PyDict K V) : List K := d.map Prod.fst

/-- Assignment `d[k] = v`: replace the entry in place when `k` is present, append at the
end otherwise — CPython's dict assignment preserves insertion order this way. -/
def dictInsert : PyDict K V → K → V → PyDict K V
  | [], k, v => [(k, v)]
  | p :: rest, k, v =>
      if p.1 = k then (k, v) :: rest else p :: dictInsert rest k v

/-- Lookup `d.get(k)`: the value stored at `k`, if any (first occurrence; dicts built
by `dictInsert` never hold a key twice). -/
def dictGet : PyDict K V → K → Option V
  | [], _ => none
  | p :: rest, k => if p.1 = k then some p.2 else dictGet rest k

/-- Merge `d.update(e)` / `\x7b**d, **e\x7d`: insert every entry of `e` into `d`,
left to right, later entries overwriting earlier ones. -/
def dictUpdate (d e : PyDict K V) : PyDict K V :=
  e.foldl (fun a p => dictInsert a p.1 p.2) d

/-- The `PredictionRecord` dataclass (monitor.py lines 20-58), field for field.  The two
processors are user-supplied Python callables and may raise: they return
`Except`. -/
structure PredictionRecord (V : Type) where
  _timestamp : V
  _prediction_id : V
  _latency : V
  _args : List V
  _kwargs : PyDict String V
  _input_preprocessor : List V → PyDict String V → Except Unit (PyDict String V)
  _output_postprocessor : V → Except Unit V
  _additional_data : PyDict String V
  _output : V

/-- Method `PredictionRecord.get`: the raw output. -/
def PredictionRecord.get (r : PredictionRecord V) : V := r._output

/-- Method `PredictionRecord.add_data`: `self._additional_data.update(data)`.  The
only mutation the class performs after construction. -/
def PredictionRecord.add_data (r : PredictionRecord V) (data : PyDict String V) :
    PredictionRecord V :=
  { r with _additional_data := dictUpdate r._additional_data data }

/-- The `inputs` property: apply the input preprocessor to the stored call
arguments.  The `**self._kwargs` unpacking at the call site hands the
preprocessor a fresh dict, so the stored `_kwargs` is never mutated. -/
def PredictionRecord.inputs (r : PredictionRecord V) :
    Except Unit (PyDict String V) :=
  r._input_preprocessor r._args r._kwargs

/-- The `output` property: apply the output postprocessor to the raw output. -/
def PredictionRecord.output (r : PredictionRecord V) : Except Unit V :=
  r._output_postprocessor r._output

/-- Method `PredictionRecord.as_dict`: the dict literal
`{"timestamp": ..., "prediction_id": ..., "latency": ..., **self.inputs,
"prediction": self.output, **self._additional_data}`; values are evaluated
left to right, so a raising preprocessor aborts before the postprocessor
runs, and later entries overwrite earlier ones on key collision. -/
def PredictionRecord.as_dict (r : PredictionRecord V) :
    Except Unit (PyDict String V) := do
  let ins ← r.inputs
  let out ← r.output
  pure (dictUpdate
          (dictInsert
            (dictUpdate
              [("timestamp", r._timestamp),
               ("prediction_id", r._prediction_id),
               ("latency", r._latency)]
              ins)
            "prediction" out)
          r._additional_data)

/-- Method `Monitor._default_input_processor`: start from the keyword arguments and
add each positional argument under its declared parameter name, skipping
`self`; indexing past `spec.args` raises (IndexError).  `processed = kwargs`
aliases the callee's own fresh keyword dict, so the record's stored kwargs
stay untouched. -/
def default_input_processor (spec_args : List String)
    (args : List V) (kwargs : PyDict String V) :
    Except Unit (PyDict String V) :=
  args.enum.foldlM
    (fun processed iarg =>
      match spec_args.get? iarg.1 with
      | none => Except.error ()
      | some name =>
          if name = "self" then pure processed
          else pure (dictInsert processed name iarg.2))
    kwargs

/-- The class-level tuning constants of `Monitor` (mutable in the source,
shrunk by the tests). -/
structure MonitorCfg where
  MAX_LOGGED_COUNT : Nat := 10000
  MAX_UNSAVED_COUNT : Nat := 2
  MAX_UNSAVED_SECONDS : Int := 5

/-- One run held by the sink: the flat records logged to it, and whether
`wandb.finish` has closed it. -/
structure RunState (V : Type) where
  logs : List (PyDict String V) := []
  finished : Bool := false

/-- The state of one `Monitor` session together with the sink it talks to.
`run` is the monitor's own `self.run` pointer, `current_run` is the global
`wandb.run` that `wandb.finish()` acts on; `runs` lists every run the sink
ever created, in creation order (index = run id). -/
structure Session (V : Type) where
  queue : List (PredictionRecord V)
  logged_count : Nat
  last_saved_timestamp : Int
  run : Option Nat
  current_run : Option Nat
  disabled : Bool
  auto_commit : Bool
  runs : List (RunState V)

/-- Apply `f` to the run with id `rid`, leaving the rest alone. -/
def modifyRun : List (RunState V) → Nat → (RunState V → RunState V) →
    List (RunState V)
  | [], _, _ => []
  | r :: rest, 0, f => f r :: rest
  | r :: rest, n + 1, f => r :: modifyRun rest n f

/-- Sink call `wandb.init(...)`: the sink creates a fresh run and makes it the global
current run; returns its id. -/
def wandb_init (s : Session V) : Session V × Nat :=
  let rid := s.runs.length
  ({ s with runs := s.runs ++ [{ logs := [], finished := false }],
            current_run := some rid }, rid)

/-- Sink call `wandb.finish()`: close the global current run, if any. -/
def wandb_finish (s : Session V) : Session V :=
  match s.current_run with
  | none => s
  | some rid =>
      { s with runs := modifyRun s.runs rid (fun r => { r with finished := true }),
               current_run := none }

/-- Sink call `run.log(d)`: append a flat record to run `rid`. -/
def run_log (s : Session V) (rid : Nat) (d : PyDict String V) : Session V :=
  { s with runs := modifyRun s.runs rid (fun r => { r with logs := r.logs ++ [d] }) }

/-- Method `Monitor._init_run`: `wandb.init(config=..., settings=..., job_type='monitor')`
plus a best-effort `use_artifact` whose `CommError` is caught and ignored
(so it has no effect on the modelled state). -/
def init_run (s : Session V) : Session V × Nat := wandb_init s

/-- Method `Monitor._ensure_run`: create a run lazily and remember it in `self.run`. -/
def ensure_run (s : Session V) : Session V :=
  match s.run with
  | some _ => s
  | none =>
      let p := init_run s
      { p.1 with run := some p.2 }

/-- Method `Monitor._maybe_rotate_run`, exactly as written: when `self.run` exists and
`logged_count` exceeds the threshold, it computes `config`/`settings` into
locals that are then dropped, calls `wandb.finish()`, sets the otherwise
unused attribute `self._flush_count` to 0 (leaving `logged_count` untouched),
and calls `self._init_run()` discarding its result, so `self.run` keeps
pointing at the run that was just finished. -/
def maybe_rotate_run (cfg : MonitorCfg) (s : Session V) : Session V × Bool :=
  if s.run.isSome ∧ s.logged_count > cfg.MAX_LOGGED_COUNT then
    let s1 := wandb_finish s
    let p := init_run s1
    (p.1, true)
  else (s, false)

/-- How a flush attempt ends: normal return, or the exception that escaped
the loop body. -/
inductive FlushOutcome where
  | ok : FlushOutcome
  | transform_error : FlushOutcome
  | connection_error : FlushOutcome
  | attribute_error : FlushOutcome
  deriving DecidableEq, Repr

/-- The flush loop `for r in self._iterate_records(): self.run.log(r.as_dict());
self.logged_count += 1`.  `get_nowait` removes the record from the queue
before the body runs, so a record whose `as_dict` raises, or whose `log` call
fails at the sink (`logOk d = false` models a ConnectionError), has already
left the queue when the exception aborts the loop; records behind it stay
queued. -/
def flush_records (logOk : PyDict String V → Bool) (rid : Nat) :
    List (PredictionRecord V) → Session V → Session V × FlushOutcome
  | [], s => (s, FlushOutcome.ok)
  | r :: rest, s =>
      let s0 := { s with queue := rest }
      match r.as_dict with
      | Except.error _ => (s0, FlushOutcome.transform_error)
      | Except.ok d =>
          if logOk d then
            flush_records logOk rid rest
              { run_log s0 rid d with logged_count := s0.logged_count + 1 }
          else (s0, FlushOutcome.connection_error)

/-- Method `Monitor.commit(record, force)`, with the source's guard verbatim: skip
when `(record is None and not force and unsaved_count < MAX_UNSAVED_COUNT)
or (last_saved_timestamp > now - MAX_UNSAVED_SECONDS)` (Python's `and` binds
tighter than `or`).  An explicit record is enqueued only past that guard, and
a non-forced explicit commit returns right after enqueueing.  A successful
flush updates `last_saved_timestamp` and evaluates rotation; an exception in
the loop leaves both undone.  `self.run.log` with `self.run = None` raises
`AttributeError` on the first drained record. -/
def commit (cfg : MonitorCfg) (logOk : PyDict String V → Bool)
    (s : Session V) (record : Option (PredictionRecord V)) (force : Bool)
    (now : Int) : Session V × FlushOutcome :=
  if (record.isNone && !force && decide (s.queue.length < cfg.MAX_UNSAVED_COUNT))
      || decide (s.last_saved_timestamp > now - cfg.MAX_UNSAVED_SECONDS) then
    (s, FlushOutcome.ok)
  else
    let s1 := match record with
      | some r => { s with queue := s.queue ++ [r] }
      | none => s
    if record.isSome && !force then (s1, FlushOutcome.ok)
    else
      match s1.run with
      | none =>
          match s1.queue with
          | [] =>
              let s2 := { s1 with last_saved_timestamp := now }
              ((maybe_rotate_run cfg s2).1, FlushOutcome.ok)
          | _ :: rest => ({ s1 with queue := rest }, FlushOutcome.attribute_error)
      | some rid =>
          let p := flush_records logOk rid s1.queue s1
          match p.2 with
          | FlushOutcome.ok =>
              let s3 := { p.1 with last_saved_timestamp := now }
              ((maybe_rotate_run cfg s3).1, FlushOutcome.ok)
          | e => (p.1, e)

/-- Method `Monitor.__call__`: run the wrapped callable; an exception it raises
propagates unchanged with no record built and no state change.  On success a
record is built from the verbatim arguments, returned to the caller, and
enqueued only when neither `disabled` nor `auto_commit = False` prevents it. -/
def call (s : Session V) (fn : List V → PyDict String V → Except Unit V)
    (ipre : List V → PyDict String V → Except Unit (PyDict String V))
    (opost : V → Except Unit V) (ts pid lat : V)
    (args : List V) (kwargs : PyDict String V) :
    Except Unit (PredictionRecord V) × Session V :=
  match fn args kwargs with
  | Except.error e => (Except.error e, s)
  | Except.ok result =>
      let pred : PredictionRecord V :=
        { _timestamp := ts, _prediction_id := pid, _latency := lat,
          _args := args, _kwargs := kwargs,
          _input_preprocessor := ipre, _output_postprocessor := opost,
          _additional_data := [], _output := result }
      if s.disabled then (Except.ok pred, s)
      else if s.auto_commit then
        (Except.ok pred, { s with queue := s.queue ++ [pred] })
      else (Except.ok pred, s)

/-- The worker's poll loop: each tick is `(join_requested, now)`; when the
session is not disabled the tick runs `commit(force=join_requested)`.  An
exception escaping `commit` exits the loop (the thread dies); a clean tick
with `join_requested` exits it cleanly. -/
def worker_loop (cfg : MonitorCfg) (logOk : PyDict String V → Bool) :
    List (Bool × Int) → Session V → Session V × FlushOutcome
  | [], s => (s, FlushOutcome.ok)
  | (join_requested, now) :: rest, s =>
      let p := if s.disabled then (s, FlushOutcome.ok)
               else commit cfg logOk s none join_requested now
      match p.2 with
      | FlushOutcome.ok =>
          if join_requested then (p.1, FlushOutcome.ok)
          else worker_loop cfg logOk rest p.1
      | e => (p.1, e)

/-- Method `Monitor._thread_body`: `_ensure_run()` runs first, unconditionally — even
for a disabled session — then the poll loop, and the `finally` clause calls
`wandb.finish()` however the loop exits. -/
def thread_body (cfg : MonitorCfg) (logOk : PyDict String V → Bool)
    (ticks : List (Bool × Int)) (s : Session V) : Session V × FlushOutcome :=
  let s0 := ensure_run s
  let p := worker_loop cfg logOk ticks s0
  (wandb_finish p.1, p.2)

/-! Concrete material for the scenario theorems: records over `V := Nat`,
trivially succeeding / failing processors, and the session states the
spec's scenarios describe. -/

/-- An input preprocessor that succeeds with an empty dict. -/
def okPre : List Nat → PyDict String Nat → Except Unit (PyDict String Nat) :=
  fun _ _ => Except.ok []

/-- A user-supplied input preprocessor that raises. -/
def badPre : List Nat → PyDict String Nat → Except Unit (PyDict String Nat) :=
  fun _ _ => Except.error ()

/-- The identity output postprocessor (the source default `lambda x: x`). -/
def okPost : Nat → Except Unit Nat := fun v => Except.ok v

/-- A simple record whose id and raw output are `n`. -/
def mkRec (n : Nat) : PredictionRecord Nat :=
  { _timestamp := 0, _prediction_id := n, _latency := 0,
    _args := [], _kwargs := [],
    _input_preprocessor := okPre, _output_postprocessor := okPost,
    _additional_data := [], _output := n }

/-- A record whose input transform raises during `as_dict`. -/
def badRec : PredictionRecord Nat := { mkRec 99 with _input_preprocessor := badPre }

/-- A sink that accepts every `log` call. -/
def allOk : PyDict String Nat → Bool := fun _ => true

/-- A sink that raises a ConnectionError exactly on the record whose
`prediction_id` is 1. -/
def failOn1 : PyDict String Nat → Bool :=
  fun d => !(dictGet d "prediction_id" == some 1)

/-- The tuning constants the rotation test uses: `MAX_LOGGED_COUNT = 10`. -/
def demoCfg : MonitorCfg :=
  { MAX_LOGGED_COUNT := 10, MAX_UNSAVED_COUNT := 2, MAX_UNSAVED_SECONDS := 5 }

/-- Build an enabled, auto-committing session state. -/
def mkSession (q : List (PredictionRecord Nat)) (lc : Nat) (lastTs : Int)
    (run : Option Nat) (runs : List (RunState Nat)) : Session Nat :=
  { queue := q, logged_count := lc, last_saved_timestamp := lastTs,
    run := run, current_run := run, disabled := false, auto_commit := true,
    runs := runs }

/-- One fresh (empty, open) run. -/
def freshRun : RunState Nat := { logs := [], finished := false }

/-- Scenario state for the forced-commit claim: one queued record, an open
run, and a flush that happened 2 seconds ago (10, with "now" = 12). -/
def sForced : Session Nat := mkSession [mkRec 0] 0 10 (some 0) [freshRun]

/-- Scenario state for the explicit-record claim: empty queue, open run,
last flush 2 seconds ago. -/
def sExplicit : Session Nat := mkSession [] 0 10 (some 0) [freshRun]

/-- Scenario state at a rotation boundary: 11 records already logged to run 0
with threshold 10. -/
def sRotate : Session Nat :=
  mkSession [] 11 0 (some 0) [{ logs := List.replicate 11 [("x", 0)], finished := false }]

/-- The rotation scenario state with one more record queued afterwards. -/
def sRotated : Session Nat :=
  { (maybe_rotate_run demoCfg sRotate).1 with queue := [mkRec 5] }

/-- The 15-records scenario: a fresh session whose queue holds 15
auto-committed records, before the worker has created any run. -/
def sFifteen : Session Nat :=
  { queue := (List.range 15).map mkRec, logged_count := 0,
    last_saved_timestamp := -10, run := none, current_run := none,
    disabled := false, auto_commit := true, runs := [] }

/-- A freshly constructed session whose credentials check failed:
`disabled = true`, nothing queued, no run yet. -/
def sDisabled : Session Nat :=
  { queue := [], logged_count := 0, last_saved_timestamp := -10,
    run := none, current_run := none, disabled := true, auto_commit := true,
    runs := [] }

/-- Batch with a failing transform first and a healthy record behind it. -/
def sBadBatch : Session Nat := mkSession [badRec, mkRec 1] 0 (-10) (some 0) [freshRun]

/-- Batch of three healthy records, logged against the sink that fails on the
middle one. -/
def sConnBatch : Session Nat :=
  mkSession [mkRec 0, mkRec 1, mkRec 2] 0 (-10) (some 0) [freshRun]

/-- A wrapped callable that raises on every invocation. -/
def errFn : List Nat → PyDict String Nat → Except Unit Nat :=
  fun _ _ => Except.error ()

/-- A wrapped callable that returns 42. -/
def constFn : List Nat → PyDict String Nat → Except Unit Nat :=
  fun _ _ => Except.ok 42

/-- The fixed leading entries of `as_dict`. -/
def baseEntries (r : PredictionRecord V) : PyDict String V :=
  [("timestamp", r._timestamp), ("prediction_id", r._prediction_id),
   ("latency", r._latency)]

/-- An input preprocessor whose result collides with the `timestamp` key. -/
def collidePre : List Nat → PyDict String Nat → Except Unit (PyDict String Nat) :=
  fun _ _ => Except.ok [("timestamp", 77)]

/-- A record whose transformed inputs collide with `timestamp` and whose
metadata collides with `prediction`. -/
def collideRec : PredictionRecord Nat :=
  { mkRec 5 with _input_preprocessor := collidePre,
                 _additional_data := [("prediction", 99)] }

/-- The record `call` builds for `constFn` at timestamp 0, id 1, latency 2
with no arguments. -/
def demoPred : PredictionRecord Nat :=
  { _timestamp := 0, _prediction_id := 1, _latency := 2, _args := [],
    _kwargs := [], _input_preprocessor := okPre, _output_postprocessor := okPost,
    _additional_data := [], _output := 42 }

/-! Library of facts about the Python-dict model. -/

omit [DecidableEq K] in
theorem keys_cons (p : K × V) (d : PyDict K V) : keys (p :: d) = p.1 :: keys d := rfl

omit [DecidableEq K] in
theorem keys_append (d e : PyDict K V) : keys (d ++ e) = keys d ++ keys e := by
  simp [keys]

theorem dictGet_of_not_mem {d : PyDict K V} {k : K} (h : k ∉ keys d) :
    dictGet d k = none := by
  induction d with
  | nil => rfl
  | cons p rest ih =>
      simp only [keys_cons, List.mem_cons, not_or] at h
      simp [dictGet, Ne.symm h.1, ih h.2]

theorem dictGet_append_left {d e : PyDict K V} {k : K} (h : k ∈ keys d) :
    dictGet (d ++ e) k = dictGet d k := by
  induction d with
  | nil => simp [keys] at h
  | cons p rest ih =>
      by_cases hp : p.1 = k
      · simp [dictGet, hp]
      · simp only [keys_cons, List.mem_cons] at h
        rcases h with h | h
        · exact absurd h.symm hp
        · simp [dictGet, hp, ih h]

theorem dictGet_append_right {d e : PyDict K V} {k : K} (h : k ∉ keys d) :
    dictGet (d ++ e) k = dictGet e k := by
  induction d with
  | nil => rfl
  | cons p rest ih =>
      simp only [keys_cons, List.mem_cons, not_or] at h
      simp [dictGet, Ne.symm h.1, ih h.2]

theorem dictInsert_of_not_mem {d : PyDict K V} {k : K} (v : V) (h : k ∉ keys d) :
    dictInsert d k v = d ++ [(k, v)] := by
  induction d with
  | nil => rfl
  | cons p rest ih =>
      simp only [keys_cons, List.mem_cons, not_or] at h
      simp [dictInsert, Ne.symm h.1, ih h.2]

theorem dictGet_dictInsert_self (d : PyDict K V) (k : K) (v : V) :
    dictGet (dictInsert d k v) k = some v := by
  induction d with
  | nil => simp [dictInsert, dictGet]
  | cons p rest ih =>
      by_cases hp : p.1 = k
      · simp [dictInsert, hp, dictGet]
      · simp [dictInsert, hp, dictGet, ih]

theorem dictGet_dictInsert_of_ne {k' k : K} (d : PyDict K V) (v : V)
    (hne : k' ≠ k) : dictGet (dictInsert d k v) k' = dictGet d k' := by
  induction d with
  | nil => simp [dictInsert, dictGet, Ne.symm hne]
  | cons p rest ih =>
      by_cases hp : p.1 = k
      · simp [dictInsert, hp, dictGet, Ne.symm hne, hp ▸ (Ne.symm hne : k ≠ k')]
      · rw [dictInsert, if_neg hp]
        by_cases hp' : p.1 = k'
        · simp [dictGet, hp']
        · simp [dictGet, hp', ih]

theorem dictGet_dictUpdate_of_not_mem {e : PyDict K V} {k : K}
    (h : k ∉ keys e) : ∀ d : PyDict K V, dictGet (dictUpdate d e) k = dictGet d k := by
  induction e with
  | nil => intro d; rfl
  | cons p rest ih =>
      intro d
      simp only [keys_cons, List.mem_cons, not_or] at h
      show dictGet (dictUpdate (dictInsert d p.1 p.2) rest) k = dictGet d k
      rw [ih h.2, dictGet_dictInsert_of_ne _ _ h.1]

theorem dictGet_dictUpdate_of_mem {e : PyDict K V} {k : K}
    (hnd : (keys e).Nodup) (h : k ∈ keys e) :
    ∀ d : PyDict K V, dictGet (dictUpdate d e) k = dictGet e k := by
  induction e with
  | nil => simp [keys] at h
  | cons p rest ih =>
      intro d
      rw [keys_cons, List.nodup_cons] at hnd
      show dictGet (dictUpdate (dictInsert d p.1 p.2) rest) k = dictGet (p :: rest) k
      by_cases hp : p.1 = k
      · have hk : k ∉ keys rest := hp ▸ hnd.1
        rw [dictGet_dictUpdate_of_not_mem hk, hp, dictGet_dictInsert_self]
        simp [dictGet, hp]
      · simp only [keys_cons, List.mem_cons] at h
        rcases h with h | h
        · exact absurd h.symm hp
        · rw [ih hnd.2 h]
          simp [dictGet, hp]

theorem dictUpdate_eq_append {e : PyDict K V} (hnd : (keys e).Nodup) :
    ∀ d : PyDict K V, (∀ k ∈ keys e, k ∉ keys d) → dictUpdate d e = d ++ e := by
  induction e with
  | nil => intro d _; simp [dictUpdate]
  | cons p rest ih =>
      intro d hdisj
      rw [keys_cons, List.nodup_cons] at hnd
      show dictUpdate (dictInsert d p.1 p.2) rest = d ++ p :: rest
      have hp : p.1 ∉ keys d := hdisj p.1 (by rw [keys_cons]; exact List.mem_cons_self _ _)
      rw [dictInsert_of_not_mem p.2 hp]
      have hstep : dictUpdate (d ++ [(p.1, p.2)]) rest = (d ++ [(p.1, p.2)]) ++ rest := by
        apply ih hnd.2
        intro k hk
        rw [keys_append]
        simp only [List.mem_append, not_or]
        constructor
        · exact hdisj k (by rw [keys_cons]; exact List.mem_cons_of_mem _ hk)
        · simp only [keys, List.map_cons, List.map_nil, List.mem_singleton]
          intro he
          exact hnd.1 (he ▸ hk)
      rw [hstep]
      simp

/-! Facts about the flush loop needed by the batch-error claims. -/

theorem length_modifyRun (runs : List (RunState V)) (rid : Nat)
    (f : RunState V → RunState V) :
    (modifyRun runs rid f).length = runs.length := by
  induction runs generalizing rid with
  | nil => rfl
  | cons r rest ih =>
      cases rid with
      | zero => rfl
      | succ n => simp [modifyRun, ih]

theorem getD_modifyRun_self (runs : List (RunState V)) (rid : Nat)
    (f : RunState V → RunState V) (x : RunState V) (h : rid < runs.length) :
    (modifyRun runs rid f).getD rid x = f (runs.getD rid x) := by
  induction runs generalizing rid with
  | nil => simp at h
  | cons r rest ih =>
      cases rid with
      | zero => rfl
      | succ n =>
          simp only [modifyRun, List.getD_cons_succ]
          exact ih n (by simpa using h)

theorem flush_records_append_of_ok (logOk : PyDict String V → Bool) (rid : Nat)
    (pre : List (PredictionRecord V)) :
    ∀ (rest : List (PredictionRecord V)) (s : Session V),
      (∀ r ∈ pre, ∃ d, r.as_dict = Except.ok d ∧ logOk d = true) →
      rid < s.runs.length →
      ∃ s', flush_records logOk rid (pre ++ rest) s = flush_records logOk rid rest s'
        ∧ s'.logged_count = s.logged_count + pre.length
        ∧ s'.runs.length = s.runs.length
        ∧ (s'.runs.getD rid ⟨[], false⟩).logs.length
            = (s.runs.getD rid ⟨[], false⟩).logs.length + pre.length
        ∧ s'.run = s.run
        ∧ s'.last_saved_timestamp = s.last_saved_timestamp := by
  induction pre with
  | nil =>
      intro rest s _ _
      exact ⟨s, rfl, rfl, rfl, rfl, rfl, rfl⟩
  | cons r pre ih =>
      intro rest s hpre hrid
      obtain ⟨d, hd, hok⟩ := hpre r (List.mem_cons_self _ _)
      have hstep : flush_records logOk rid ((r :: pre) ++ rest) s
          = flush_records logOk rid (pre ++ rest)
              { run_log { s with queue := pre ++ rest } rid d with
                logged_count := s.logged_count + 1 } := by
        show flush_records logOk rid (r :: (pre ++ rest)) s = _
        rw [flush_records, hd]
        simp [hok]
      obtain ⟨s', heq, hlc, hlen, hlogs, hrun, hts⟩ :=
        ih rest
          { run_log { s with queue := pre ++ rest } rid d with
            logged_count := s.logged_count + 1 }
          (fun r hr => hpre r (List.mem_cons_of_mem _ hr))
          (by simpa [run_log, length_modifyRun] using hrid)
      refine ⟨s', hstep.trans heq, ?_, ?_, ?_, ?_, ?_⟩
      · simp only [hlc]
        simp [Nat.add_assoc, Nat.add_comm 1 pre.length]
      · simpa [run_log, length_modifyRun] using hlen
      · rw [hlogs]
        have hone : ((run_log { s with queue := pre ++ rest } rid d).runs.getD rid
            ⟨[], false⟩).logs.length = (s.runs.getD rid ⟨[], false⟩).logs.length + 1 := by
          simp only [run_log]
          rw [getD_modifyRun_self _ _ _ _ hrid]
          simp
        simp only [hone]
        simp [Nat.add_assoc, Nat.add_comm 1 pre.length]
      · simpa [run_log] using hrun
      · simpa [run_log] using hts

end Wandbmon

namespace Wandbmon

/-- C1: evaluation of the source at the failing input. -/
theorem C1_forced_commit_skipped_by_recent_flush :
    (commit demoCfg allOk sForced none true 12).2 = FlushOutcome.ok
    ∧ (commit demoCfg allOk sForced none true 12).1.queue.length = 1
    ∧ (commit demoCfg allOk sForced none true 12).1.runs.map (fun r => r.logs.length) = [0]
    ∧ (commit demoCfg allOk sForced none true 12).1.logged_count = 0 := by
  decide

/-- C2: evaluation of the source at the failing input. -/
theorem C2_explicit_record_silently_dropped :
    (commit demoCfg allOk sExplicit (some (mkRec 1)) false 12).2 = FlushOutcome.ok
    ∧ (commit demoCfg allOk sExplicit (some (mkRec 1)) false 12).1.queue.length = 0
    ∧ (commit demoCfg allOk sExplicit (some (mkRec 1)) false 12).1.runs.map
        (fun r => r.logs.length) = [0] := by
  decide

/-- C3: evaluation of rotation at the failing input. -/
theorem C3_rotation_keeps_count_and_old_run :
    (maybe_rotate_run demoCfg sRotate).2 = true
    ∧ (maybe_rotate_run demoCfg sRotate).1.logged_count = 11
    ∧ (maybe_rotate_run demoCfg sRotate).1.run = some 0
    ∧ (maybe_rotate_run demoCfg sRotate).1.current_run = some 1
    ∧ (maybe_rotate_run demoCfg sRotate).1.runs.map
        (fun r => (r.logs.length, r.finished)) = [(11, true), (0, false)]
    ∧ (commit demoCfg allOk sRotated none true 100).1.runs.map
        (fun r => (r.logs.length, r.finished)) = [(12, true), (0, true), (0, false)] := by
  decide

/-- C4: evaluation of the 15-record scenario. -/
theorem C4_fifteen_records_wrong_partition :
    (thread_body demoCfg allOk [(true, 0)] sFifteen).1.runs.map
        (fun r => (r.logs.length, r.finished)) = [(15, true), (0, true)]
    ∧ (thread_body demoCfg allOk [(true, 0)] sFifteen).2 = FlushOutcome.ok := by
  decide

/-- C5: evaluation of the disabled-session scenario. -/
theorem C5_disabled_session_still_reaches_sink :
    (thread_body demoCfg allOk [(true, 0)] sDisabled).1.runs.map
        (fun r => (r.logs.length, r.finished)) = [(0, true)]
    ∧ (call sDisabled constFn okPre okPost 3 8 7 [] []).2.queue.length = 0
    ∧ ((call sDisabled constFn okPre okPost 3 8 7 [] []).1.map
        (fun p => (p._latency, p.get))) = Except.ok (7, 42) :=
  ⟨by decide, by decide, rfl⟩

/-- C6 counterexample. -/
theorem C6_counterexample :
    (commit demoCfg allOk sBadBatch none true 0).2 = FlushOutcome.transform_error
    ∧ (commit demoCfg allOk sBadBatch none true 0).1.queue.length = 1
    ∧ (commit demoCfg allOk sBadBatch none true 0).1.runs.map
        (fun r => r.logs.length) = [0] := by
  decide

/-- C6 amended. -/
theorem C6_transform_error_aborts_batch (logOk : PyDict String Nat → Bool) (rid : Nat)
    (pre post : List (PredictionRecord Nat)) (bad : PredictionRecord Nat)
    (s : Session Nat)
    (hpre : ∀ r ∈ pre, ∃ d, r.as_dict = Except.ok d ∧ logOk d = true)
    (hbad : bad.as_dict = Except.error ())
    (hrid : rid < s.runs.length) :
    (flush_records logOk rid (pre ++ bad :: post) s).2 = FlushOutcome.transform_error
    ∧ (flush_records logOk rid (pre ++ bad :: post) s).1.queue = post
    ∧ (flush_records logOk rid (pre ++ bad :: post) s).1.logged_count
        = s.logged_count + pre.length
    ∧ ((flush_records logOk rid (pre ++ bad :: post) s).1.runs.getD rid
        ⟨[], false⟩).logs.length
        = (s.runs.getD rid ⟨[], false⟩).logs.length + pre.length := by
  obtain ⟨s', heq, hlc, hlen, hlogs, hrun, hts⟩ :=
    flush_records_append_of_ok logOk rid pre (bad :: post) s hpre hrid
  have hstep : flush_records logOk rid (bad :: post) s'
      = ({ s' with queue := post }, FlushOutcome.transform_error) := by
    rw [flush_records, hbad]
  rw [heq, hstep]
  exact ⟨rfl, rfl, hlc, hlogs⟩

/-- C6 witness. -/
theorem C6_transform_error_aborts_batch_witness :
    (flush_records allOk 0 ([mkRec 1] ++ badRec :: [mkRec 2]) sExplicit).2
        = FlushOutcome.transform_error
    ∧ (flush_records allOk 0 ([mkRec 1] ++ badRec :: [mkRec 2]) sExplicit).1.queue
        = [mkRec 2]
    ∧ (flush_records allOk 0 ([mkRec 1] ++ badRec :: [mkRec 2]) sExplicit).1.logged_count
        = sExplicit.logged_count + 1
    ∧ ((flush_records allOk 0 ([mkRec 1] ++ badRec :: [mkRec 2]) sExplicit).1.runs.getD 0
        ⟨[], false⟩).logs.length
        = (sExplicit.runs.getD 0 ⟨[], false⟩).logs.length + 1 :=
  C6_transform_error_aborts_batch allOk 0 [mkRec 1] [mkRec 2] badRec sExplicit
    (by
      intro r hr
      rw [List.mem_singleton] at hr
      subst hr
      exact ⟨[("timestamp", 0), ("prediction_id", 1), ("latency", 0), ("prediction", 1)],
             rfl, rfl⟩)
    rfl (by decide)

/-- C7 counterexample. -/
theorem C7_counterexample :
    (worker_loop demoCfg failOn1 [(false, 0), (false, 10)] sConnBatch).2
        = FlushOutcome.connection_error
    ∧ (worker_loop demoCfg failOn1 [(false, 0), (false, 10)] sConnBatch).1.queue.length = 1
    ∧ (worker_loop demoCfg failOn1 [(false, 0), (false, 10)] sConnBatch).1.runs.map
        (fun r => r.logs.length) = [1]
    ∧ (worker_loop demoCfg failOn1 [(false, 0), (false, 10)] sConnBatch).1.last_saved_timestamp
        = -10 := by
  decide

/-- C7 amended. -/
theorem C7_connection_error_loses_inflight_record (logOk : PyDict String Nat → Bool)
    (rid : Nat) (pre post : List (PredictionRecord Nat)) (fr : PredictionRecord Nat)
    (s : Session Nat)
    (hpre : ∀ r ∈ pre, ∃ d, r.as_dict = Except.ok d ∧ logOk d = true)
    (hfr : ∃ d, fr.as_dict = Except.ok d ∧ logOk d = false)
    (hrid : rid < s.runs.length) :
    (flush_records logOk rid (pre ++ fr :: post) s).2 = FlushOutcome.connection_error
    ∧ (flush_records logOk rid (pre ++ fr :: post) s).1.queue = post
    ∧ (flush_records logOk rid (pre ++ fr :: post) s).1.logged_count
        = s.logged_count + pre.length
    ∧ ((flush_records logOk rid (pre ++ fr :: post) s).1.runs.getD rid
        ⟨[], false⟩).logs.length
        = (s.runs.getD rid ⟨[], false⟩).logs.length + pre.length
    ∧ (flush_records logOk rid (pre ++ fr :: post) s).1.last_saved_timestamp
        = s.last_saved_timestamp := by
  obtain ⟨s', heq, hlc, hlen, hlogs, hrun, hts⟩ :=
    flush_records_append_of_ok logOk rid pre (fr :: post) s hpre hrid
  obtain ⟨d, hd, hno⟩ := hfr
  have hstep : flush_records logOk rid (fr :: post) s'
      = ({ s' with queue := post }, FlushOutcome.connection_error) := by
    rw [flush_records, hd]
    simp [hno]
  rw [heq, hstep]
  exact ⟨rfl, rfl, hlc, hlogs, hts⟩

/-- C7 witness. -/
theorem C7_connection_error_loses_inflight_record_witness :
    (flush_records failOn1 0 ([mkRec 0] ++ mkRec 1 :: [mkRec 2]) sExplicit).2
        = FlushOutcome.connection_error
    ∧ (flush_records failOn1 0 ([mkRec 0] ++ mkRec 1 :: [mkRec 2]) sExplicit).1.queue
        = [mkRec 2]
    ∧ (flush_records failOn1 0 ([mkRec 0] ++ mkRec 1 :: [mkRec 2]) sExplicit).1.logged_count
        = sExplicit.logged_count + 1
    ∧ ((flush_records failOn1 0 ([mkRec 0] ++ mkRec 1 :: [mkRec 2]) sExplicit).1.runs.getD 0
        ⟨[], false⟩).logs.length
        = (sExplicit.runs.getD 0 ⟨[], false⟩).logs.length + 1
    ∧ (flush_records failOn1 0 ([mkRec 0] ++ mkRec 1 :: [mkRec 2]) sExplicit).1.last_saved_timestamp
        = sExplicit.last_saved_timestamp :=
  C7_connection_error_loses_inflight_record failOn1 0 [mkRec 0] [mkRec 2] (mkRec 1) sExplicit
    (by
      intro r hr
      rw [List.mem_singleton] at hr
      subst hr
      exact ⟨[("timestamp", 0), ("prediction_id", 0), ("latency", 0), ("prediction", 0)],
             rfl, rfl⟩)
    ⟨[("timestamp", 0), ("prediction_id", 1), ("latency", 0), ("prediction", 1)], rfl, rfl⟩
    (by decide)

/-- C8. -/
theorem C8_wrapped_exception_propagates {V : Type} (s : Session V)
    (fn : List V → PyDict String V → Except Unit V)
    (ipre : List V → PyDict String V → Except Unit (PyDict String V))
    (opost : V → Except Unit V) (ts pid lat : V)
    (args : List V) (kwargs : PyDict String V) :
    (∀ e, fn args kwargs = Except.error e →
        call s fn ipre opost ts pid lat args kwargs = (Except.error e, s))
    ∧ (∀ v, fn args kwargs = Except.ok v →
        ∃ pred, (call s fn ipre opost ts pid lat args kwargs).1 = Except.ok pred
          ∧ pred._output = v) := by
  constructor
  · intro e he
    simp [call, he]
  · intro v hv
    refine ⟨{ _timestamp := ts, _prediction_id := pid, _latency := lat, _args := args,
              _kwargs := kwargs, _input_preprocessor := ipre,
              _output_postprocessor := opost, _additional_data := [], _output := v },
            ?_, rfl⟩
    simp only [call, hv]
    by_cases hd : s.disabled <;> by_cases ha : s.auto_commit <;> simp [hd, ha]

/-- C8 witness. -/
theorem C8_wrapped_exception_propagates_witness :
    call sExplicit errFn okPre okPost 0 1 2 [] [] = (Except.error (), sExplicit)
    ∧ ∃ pred, (call sExplicit constFn okPre okPost 0 1 2 [] []).1 = Except.ok pred
        ∧ pred._output = 42 :=
  ⟨(C8_wrapped_exception_propagates sExplicit errFn okPre okPost 0 1 2 [] []).1 () rfl,
   (C8_wrapped_exception_propagates sExplicit constFn okPre okPost 0 1 2 [] []).2 42 rfl⟩

/-- C9. -/
theorem C9_record_fields_frozen {V : Type} (r : PredictionRecord V)
    (data : PyDict String V) (s : Session V)
    (fn : List V → PyDict String V → Except Unit V)
    (ipre : List V → PyDict String V → Except Unit (PyDict String V))
    (opost : V → Except Unit V) (ts pid lat : V)
    (args : List V) (kwargs : PyDict String V) (pred : PredictionRecord V)
    (hc : (call s fn ipre opost ts pid lat args kwargs).1 = Except.ok pred) :
    (r.add_data data)._timestamp = r._timestamp
    ∧ (r.add_data data)._prediction_id = r._prediction_id
    ∧ (r.add_data data)._latency = r._latency
    ∧ (r.add_data data)._args = r._args
    ∧ (r.add_data data)._kwargs = r._kwargs
    ∧ (r.add_data data)._output = r._output
    ∧ (r.add_data data)._additional_data = dictUpdate r._additional_data data
    ∧ pred._args = args ∧ pred._kwargs = kwargs := by
  refine ⟨rfl, rfl, rfl, rfl, rfl, rfl, rfl, ?_, ?_⟩ <;>
  · cases h : fn args kwargs with
    | error e => simp [call, h] at hc
    | ok v =>
        simp only [call, h] at hc
        split_ifs at hc <;>
          (injection hc with hc; rw [← hc])

/-- C9 witness. -/
theorem C9_record_fields_frozen_witness :
    ((mkRec 3).add_data [("k", 5)])._timestamp = (mkRec 3)._timestamp
    ∧ ((mkRec 3).add_data [("k", 5)])._prediction_id = (mkRec 3)._prediction_id
    ∧ ((mkRec 3).add_data [("k", 5)])._latency = (mkRec 3)._latency
    ∧ ((mkRec 3).add_data [("k", 5)])._args = (mkRec 3)._args
    ∧ ((mkRec 3).add_data [("k", 5)])._kwargs = (mkRec 3)._kwargs
    ∧ ((mkRec 3).add_data [("k", 5)])._output = (mkRec 3)._output
    ∧ ((mkRec 3).add_data [("k", 5)])._additional_data
        = dictUpdate (mkRec 3)._additional_data [("k", 5)]
    ∧ demoPred._args = [] ∧ demoPred._kwargs = [] :=
  C9_record_fields_frozen (mkRec 3) [("k", 5)] sExplicit constFn okPre okPost
    0 1 2 [] [] demoPred rfl

/-- C10. -/
theorem C10_as_dict_order_and_collisions {V : Type} (r : PredictionRecord V)
    (ins : PyDict String V) (out : V)
    (hins : r.inputs = Except.ok ins) (hout : r.output = Except.ok out)
    (hnd_ins : (keys ins).Nodup) (hnd_add : (keys r._additional_data).Nodup) :
    ∃ D, r.as_dict = Except.ok D
      ∧ ((∀ k ∈ keys ins, k ∉ keys (baseEntries r) ∧ k ≠ "prediction") →
         (∀ k ∈ keys r._additional_data,
            k ∉ keys (baseEntries r) ∧ k ∉ keys ins ∧ k ≠ "prediction") →
         D = baseEntries r ++ ins ++ [("prediction", out)] ++ r._additional_data)
      ∧ ("timestamp" ∈ keys ins → "timestamp" ∉ keys r._additional_data →
         dictGet D "timestamp" = dictGet ins "timestamp")
      ∧ ("prediction" ∈ keys r._additional_data →
         dictGet D "prediction" = dictGet r._additional_data "prediction") := by
  refine ⟨dictUpdate (dictInsert (dictUpdate (baseEntries r) ins) "prediction" out)
            r._additional_data, ?_, ?_, ?_, ?_⟩
  · rw [PredictionRecord.as_dict, hins, hout]
    rfl
  · intro hdis1 hdis2
    have h1 : dictUpdate (baseEntries r) ins = baseEntries r ++ ins :=
      dictUpdate_eq_append hnd_ins _ (fun k hk => (hdis1 k hk).1)
    have h2 : "prediction" ∉ keys (baseEntries r ++ ins) := by
      rw [keys_append]
      simp only [List.mem_append, not_or]
      constructor
      · simp [baseEntries, keys]
      · intro hk
        exact (hdis1 _ hk).2 rfl
    have h3 : dictInsert (baseEntries r ++ ins) "prediction" out
        = (baseEntries r ++ ins) ++ [("prediction", out)] :=
      dictInsert_of_not_mem out h2
    have h4 : dictUpdate ((baseEntries r ++ ins) ++ [("prediction", out)])
        r._additional_data
        = ((baseEntries r ++ ins) ++ [("prediction", out)]) ++ r._additional_data := by
      apply dictUpdate_eq_append hnd_add
      intro k hk
      rw [keys_append, keys_append]
      simp only [List.mem_append, not_or]
      obtain ⟨hkb, hki, hkp⟩ := hdis2 k hk
      refine ⟨⟨hkb, hki⟩, ?_⟩
      simp only [keys, List.map_cons, List.map_nil, List.mem_singleton]
      exact hkp
    rw [h1, h3, h4]
  · intro hmem hnadd
    rw [dictGet_dictUpdate_of_not_mem hnadd,
        dictGet_dictInsert_of_ne _ _ (by decide),
        dictGet_dictUpdate_of_mem hnd_ins hmem]
  · intro hmem
    exact dictGet_dictUpdate_of_mem hnd_add hmem _

/-- C10 witness. -/
theorem C10_as_dict_order_and_collisions_witness :
    ∃ D, collideRec.as_dict = Except.ok D
      ∧ ((∀ k ∈ keys [("timestamp", 77)],
            k ∉ keys (baseEntries collideRec) ∧ k ≠ "prediction") →
         (∀ k ∈ keys collideRec._additional_data,
            k ∉ keys (baseEntries collideRec) ∧ k ∉ keys [("timestamp", 77)]
              ∧ k ≠ "prediction") →
         D = baseEntries collideRec ++ [("timestamp", 77)] ++ [("prediction", 5)]
              ++ collideRec._additional_data)
      ∧ ("timestamp" ∈ keys [("timestamp", 77)] →
         "timestamp" ∉ keys collideRec._additional_data →
         dictGet D "timestamp" = dictGet [("timestamp", 77)] "timestamp")
      ∧ ("prediction" ∈ keys collideRec._additional_data →
         dictGet D "prediction" = dictGet collideRec._additional_data "prediction") :=
  C10_as_dict_order_and_collisions collideRec [("timestamp", 77)] 5 rfl rfl
    (by decide) (by decide)

end Wandbmon
